import Mathlib

/-!
Shallow embedding of `src/cloth_simulation/cloth_simulation.c`.

Floats are modelled as rationals.  The C library call `sqrtf` is modelled by
an explicit parameter `S : ℚ → ℚ` threaded through every function that calls
it; theorems assume that `S` returns the exact square root at the values the
code feeds it.  Mathlib's `Rat.sqrt` is a concrete computable function that
is exact on squares of rationals, used to discharge those hypotheses on
concrete inputs.

The C program stores every particle's `material` field as a pointer to the
single mutable global `current_material`, so a dereference `p->material->c`
always reads the currently active material; the embedding therefore passes
the active `Material` value explicitly to each physics function in place of
that dereference (`solve_constraint_cotton` receives one per endpoint,
mirroring the two dereferences in the source).
-/

namespace Cloth

theorem rat_sqrt_mul_self (q : ℚ) (hq : 0 ≤ q) : Rat.sqrt (q * q) = q := by
  rw [Rat.sqrt_eq, abs_of_nonneg hq]

/-- Dispatch tag for the `apply_force` function pointer of a `Material`. -/
inductive ForceKind
  | cotton
  | silk
  | denim
deriving DecidableEq, Repr

/-- Dispatch tag for the `calc_energy` function pointer of a `Material`. -/
inductive EnergyKind
  | cotton
  | silk
  | denim
deriving DecidableEq, Repr

/-- Dispatch tag for the `solve_constraint` function pointer of a `Material`. -/
inductive ConstraintKind
  | cotton
  | silk
  | denim
deriving DecidableEq, Repr

/-- The C struct `Material`: physical coefficients plus the three function
pointers, the latter modelled as dispatch tags. -/
structure Material where
  elasticity : ℚ
  mass : ℚ
  stiffness : ℚ
  damping : ℚ
  tear_distance : ℚ
  air_friction : ℚ
  bend_stiffness : ℚ
  apply_force : ForceKind
  calc_energy : EnergyKind
  solve_constraint : ConstraintKind
deriving DecidableEq, Repr

/-- The C struct `Particle`.  The `neighbors` array is always `NULL` in the
source and is omitted; the `material` pointer always aliases the global
`current_material` and is passed explicitly to the physics functions. -/
structure Particle where
  x : ℚ
  y : ℚ
  old_x : ℚ
  old_y : ℚ
  vx : ℚ
  vy : ℚ
  force_x : ℚ
  force_y : ℚ
  mass : ℚ
  locked : Bool
deriving DecidableEq, Repr

/-- The C struct `Constraint`; the two particle pointers become indices into
the particle array. -/
structure Constraint where
  p1 : Nat
  p2 : Nat
  rest_length : ℚ
  strength : ℚ
deriving DecidableEq, Repr

/-- The global `COTTON` material. -/
def COTTON : Material :=
  { elasticity := 3/10, mass := 1, stiffness := 4/5, damping := 99/100,
    tear_distance := 25, air_friction := 1/50, bend_stiffness := 3/10,
    apply_force := .cotton, calc_energy := .cotton, solve_constraint := .cotton }

/-- The global `SILK` material. -/
def SILK : Material :=
  { elasticity := 1/2, mass := 7/10, stiffness := 3/5, damping := 199/200,
    tear_distance := 20, air_friction := 3/100, bend_stiffness := 1/5,
    apply_force := .silk, calc_energy := .silk, solve_constraint := .silk }

/-- The global `DENIM` material. -/
def DENIM : Material :=
  { elasticity := 1/10, mass := 3/2, stiffness := 9/10, damping := 49/50,
    tear_distance := 35, air_friction := 1/100, bend_stiffness := 7/10,
    apply_force := .denim, calc_energy := .denim, solve_constraint := .denim }

/-- Embedding of `apply_force_cotton` (cloth_simulation.c:108-138).  `S` models `sqrtf`;
`mat` is the value behind `p->material`. -/
def apply_force_cotton (S : ℚ → ℚ) (mat : Material) (p : Particle) (dt : ℚ) :
    Particle :=
  if p.locked then p else
    let fx0 : ℚ := 0
    let fy0 : ℚ := 980 * p.mass
    let speed : ℚ := S (p.vx * p.vx + p.vy * p.vy)
    let fx : ℚ :=
      if speed > 0 then fx0 - p.vx / speed * (speed * speed * mat.air_friction)
      else fx0
    let fy : ℚ :=
      if speed > 0 then fy0 - p.vy / speed * (speed * speed * mat.air_friction)
      else fy0
    let ax : ℚ := fx / p.mass
    let ay : ℚ := fy / p.mass
    let nvx : ℚ := (p.x - p.old_x) / dt + ax * dt
    let nvy : ℚ := (p.y - p.old_y) / dt + ay * dt
    { p with
      x := p.x + nvx * dt, y := p.y + nvy * dt,
      old_x := p.x, old_y := p.y,
      vx := nvx, vy := nvy,
      force_x := fx, force_y := fy }

/-- Embedding of `apply_force_silk` (cloth_simulation.c:141-146): delegates to the cotton
rule, then scales the velocity by `damping` (also for locked particles, as in
the source, where the scaling is outside the lock guard). -/
def apply_force_silk (S : ℚ → ℚ) (mat : Material) (p : Particle) (dt : ℚ) :
    Particle :=
  let q := apply_force_cotton S mat p dt
  { q with vx := q.vx * mat.damping, vy := q.vy * mat.damping }

/-- Embedding of `apply_force_denim` (cloth_simulation.c:148-154). -/
def apply_force_denim (S : ℚ → ℚ) (mat : Material) (p : Particle) (dt : ℚ) :
    Particle :=
  let q := apply_force_cotton S mat p dt
  { q with vx := q.vx * (mat.damping * (9/10)), vy := q.vy * (mat.damping * (9/10)) }

/-- Dispatch through the `apply_force` function pointer. -/
def runForce : ForceKind → (ℚ → ℚ) → Material → Particle → ℚ → Particle
  | .cotton => apply_force_cotton
  | .silk => apply_force_silk
  | .denim => apply_force_denim

/-- Embedding of `solve_constraint_cotton` (cloth_simulation.c:185-205), returning the
updated pair.  `m1`, `m2` are the values behind `p1->material` and
`p2->material` (in the running program both alias `current_material`). -/
def solve_constraint_cotton (S : ℚ → ℚ) (m1 m2 : Material) (p1 p2 : Particle)
    (rest_length : ℚ) : Particle × Particle :=
  let dx : ℚ := p2.x - p1.x
  let dy : ℚ := p2.y - p1.y
  let dist : ℚ := S (dx * dx + dy * dy)
  if dist > 1/10000 then
    let diff : ℚ := (dist - rest_length) / dist
    let q1 :=
      if p1.locked then p1 else
        { p1 with x := p1.x + dx * diff * (1/2) * m1.elasticity,
                  y := p1.y + dy * diff * (1/2) * m1.elasticity }
    let q2 :=
      if p2.locked then p2 else
        { p2 with x := p2.x - dx * diff * (1/2) * m2.elasticity,
                  y := p2.y - dy * diff * (1/2) * m2.elasticity }
    (q1, q2)
  else (p1, p2)

/-- Embedding of `solve_constraint_silk` (cloth_simulation.c:208-210): pure delegation. -/
def solve_constraint_silk (S : ℚ → ℚ) (m1 m2 : Material) (p1 p2 : Particle)
    (rest_length : ℚ) : Particle × Particle :=
  solve_constraint_cotton S m1 m2 p1 p2 rest_length

/-- Embedding of `solve_constraint_denim` (cloth_simulation.c:212-214): delegates with the
rest length shrunk by 10%. -/
def solve_constraint_denim (S : ℚ → ℚ) (m1 m2 : Material) (p1 p2 : Particle)
    (rest_length : ℚ) : Particle × Particle :=
  solve_constraint_cotton S m1 m2 p1 p2 (rest_length * (9/10))

/-- Dispatch through the `solve_constraint` function pointer. -/
def runSolve : ConstraintKind → (ℚ → ℚ) → Material → Material → Particle →
    Particle → ℚ → Particle × Particle
  | .cotton => solve_constraint_cotton
  | .silk => solve_constraint_silk
  | .denim => solve_constraint_denim

attribute [ext] Particle

section FirstClaims

/-- Claim C9: the base constraint rule is symmetric in its pair: swapping the
two particles (together with their material dereferences) swaps the two
output particles, so the resulting positions of both particles are
identical. -/
theorem solve_constraint_cotton_symm (S : ℚ → ℚ) (m1 m2 : Material)
    (p1 p2 : Particle) (L : ℚ) :
    solve_constraint_cotton S m2 m1 p2 p1 L =
      ((solve_constraint_cotton S m1 m2 p1 p2 L).2,
       (solve_constraint_cotton S m1 m2 p1 p2 L).1) := by
  unfold solve_constraint_cotton
  dsimp only
  have harg : (p1.x - p2.x) * (p1.x - p2.x) + (p1.y - p2.y) * (p1.y - p2.y)
      = (p2.x - p1.x) * (p2.x - p1.x) + (p2.y - p1.y) * (p2.y - p1.y) := by ring
  rw [harg]
  split
  · refine Prod.ext ?_ ?_ <;> dsimp only <;> split <;> try rfl
    · ext <;> dsimp <;> ring
    · ext <;> dsimp <;> ring
  · rfl

/-- Claim C10: silk's constraint rule is extensionally equal to cotton's on
every input. -/
theorem solve_constraint_silk_eq_cotton (S : ℚ → ℚ) (m1 m2 : Material)
    (p1 p2 : Particle) (L : ℚ) :
    solve_constraint_silk S m1 m2 p1 p2 L =
      solve_constraint_cotton S m1 m2 p1 p2 L := rfl

end FirstClaims

theorem rat_sqrt_eq_of_sq (a b : ℚ) (h : a = b * b) (hb : 0 ≤ b) :
    Rat.sqrt a = b := by rw [h, rat_sqrt_mul_self b hb]

section ForceAndSolveClaims

/-- Claim C3: when the distance `d` between the pair exceeds the floor
`1/10000`, the base constraint rule moves each unlocked endpoint toward the
other by `0.5 * diff * elasticity` (with `diff = (d - restLength) / d`) along
the connecting vector, leaving locked endpoints in place; when `d` is at or
below the floor it leaves both particles unchanged (and raises no error: the
rule is a total function). -/
theorem solve_constraint_cotton_spec (S : ℚ → ℚ) (m1 m2 : Material)
    (p1 p2 : Particle) (L d : ℚ)
    (hS : S ((p2.x - p1.x) * (p2.x - p1.x) + (p2.y - p1.y) * (p2.y - p1.y)) = d)
    (hd : d * d = (p2.x - p1.x) * (p2.x - p1.x) + (p2.y - p1.y) * (p2.y - p1.y))
    (hd0 : 0 ≤ d) :
    (1/10000 < d →
      solve_constraint_cotton S m1 m2 p1 p2 L =
        ((if p1.locked then p1 else
            { p1 with
              x := p1.x + (p2.x - p1.x) * ((d - L) / d) * (1/2) * m1.elasticity,
              y := p1.y + (p2.y - p1.y) * ((d - L) / d) * (1/2) * m1.elasticity }),
         (if p2.locked then p2 else
            { p2 with
              x := p2.x - (p2.x - p1.x) * ((d - L) / d) * (1/2) * m2.elasticity,
              y := p2.y - (p2.y - p1.y) * ((d - L) / d) * (1/2) * m2.elasticity }))) ∧
    (d ≤ 1/10000 → solve_constraint_cotton S m1 m2 p1 p2 L = (p1, p2)) := by
  unfold solve_constraint_cotton
  dsimp only
  rw [hS]
  constructor
  · intro h
    rw [if_pos h]
  · intro h
    rw [if_neg (not_lt.mpr h)]

/-- Witness for C3: an unlocked pair at distance 5 with rest length 4 is
pulled together, each endpoint moving by `0.5 * (1/5) * 0.3` of the offset. -/
theorem solve_constraint_cotton_spec_witness :
    solve_constraint_cotton Rat.sqrt COTTON COTTON
      ⟨0, 0, 0, 0, 0, 0, 0, 0, 1, false⟩ ⟨3, 4, 3, 4, 0, 0, 0, 0, 1, false⟩ 4 =
      (⟨9/100, 3/25, 0, 0, 0, 0, 0, 0, 1, false⟩,
       ⟨291/100, 97/25, 3, 4, 0, 0, 0, 0, 1, false⟩) := by
  have h := (solve_constraint_cotton_spec Rat.sqrt COTTON COTTON
      ⟨0, 0, 0, 0, 0, 0, 0, 0, 1, false⟩ ⟨3, 4, 3, 4, 0, 0, 0, 0, 1, false⟩ 4 5
      (rat_sqrt_eq_of_sq _ 5 (by norm_num) (by norm_num))
      (by norm_num) (by norm_num)).1 (by norm_num)
  rw [h]
  refine Prod.ext ?_ ?_ <;> dsimp only <;> ext <;> simp [COTTON] <;> norm_num

/-- Claim C2: for an unlocked particle and `dt > 0`, the cotton force rule
resets the force accumulator to `(0, 980 * mass)`, subtracts the quadratic
drag `s^2 * air_friction` opposite the stored velocity exactly when the
stored speed `s = |(vx, vy)|` is positive, reconstructs velocity as
`(current - previous)/dt + (force/mass) * dt`, advances the position by
`velocity * dt`, and shifts the previous position to the pre-update current
position. -/
theorem apply_force_cotton_spec (S : ℚ → ℚ) (mat : Material) (p : Particle)
    (dt s : ℚ) (hlock : p.locked = false) (hdt : 0 < dt)
    (hS : S (p.vx * p.vx + p.vy * p.vy) = s)
    (hs : s * s = p.vx * p.vx + p.vy * p.vy) (hs0 : 0 ≤ s) :
    apply_force_cotton S mat p dt =
      (let Fx : ℚ := if 0 < s then 0 - p.vx / s * (s * s * mat.air_friction) else 0
       let Fy : ℚ := if 0 < s then 980 * p.mass - p.vy / s * (s * s * mat.air_friction)
                     else 980 * p.mass
       let Vx : ℚ := (p.x - p.old_x) / dt + Fx / p.mass * dt
       let Vy : ℚ := (p.y - p.old_y) / dt + Fy / p.mass * dt
       { p with x := p.x + Vx * dt, y := p.y + Vy * dt,
                old_x := p.x, old_y := p.y, vx := Vx, vy := Vy,
                force_x := Fx, force_y := Fy }) := by
  unfold apply_force_cotton
  rw [hlock]
  dsimp only
  rw [hS]
  rfl

/-- Witness for C2: a concrete unlocked particle with stored velocity
`(3, 4)` (speed 5), mass 2, at `(1, 2)` coming from `(0, 0)`, `dt = 1`,
cotton air friction `1/50`. -/
theorem apply_force_cotton_spec_witness :
    apply_force_cotton Rat.sqrt COTTON ⟨1, 2, 0, 0, 3, 4, 0, 0, 2, false⟩ 1 =
      ⟨37/20, 4919/5, 1, 2, 17/20, 4909/5, -3/10, 9798/5, 2, false⟩ := by
  have h := apply_force_cotton_spec Rat.sqrt COTTON
      ⟨1, 2, 0, 0, 3, 4, 0, 0, 2, false⟩ 1 5 rfl (by norm_num)
      (rat_sqrt_eq_of_sq _ 5 (by norm_num) (by norm_num))
      (by norm_num) (by norm_num)
  rw [h]
  ext <;> simp [COTTON] <;> norm_num

/-- Claim C8: for an unlocked particle whose stored velocity is exactly zero
(and a square root returning 0 at 0, as `sqrtf` does), the air-drag branch is
skipped entirely: the force accumulator stays at `(0, 980 * mass)` and the
update is the drag-free one, with no division by the zero speed. -/
theorem apply_force_cotton_zero_velocity (S : ℚ → ℚ) (mat : Material)
    (p : Particle) (dt : ℚ) (hlock : p.locked = false) (hdt : 0 < dt)
    (hvx : p.vx = 0) (hvy : p.vy = 0) (hS0 : S 0 = 0) :
    apply_force_cotton S mat p dt =
      (let Vx : ℚ := (p.x - p.old_x) / dt + 0 / p.mass * dt
       let Vy : ℚ := (p.y - p.old_y) / dt + 980 * p.mass / p.mass * dt
       { p with x := p.x + Vx * dt, y := p.y + Vy * dt,
                old_x := p.x, old_y := p.y, vx := Vx, vy := Vy,
                force_x := 0, force_y := 980 * p.mass }) := by
  unfold apply_force_cotton
  rw [hlock]
  dsimp only
  rw [hvx, hvy]
  rw [show (0 : ℚ) * 0 + 0 * 0 = 0 by norm_num, hS0]
  rw [if_neg (by norm_num)]
  rfl

/-- Witness for C8: a resting unlocked particle of mass 1 at the origin with
`dt = 1` free-falls by exactly `980` with force accumulator `(0, 980)`. -/
theorem apply_force_cotton_zero_velocity_witness :
    apply_force_cotton Rat.sqrt COTTON ⟨0, 0, 0, 0, 0, 0, 0, 0, 1, false⟩ 1 =
      ⟨0, 980, 0, 0, 0, 980, 0, 980, 1, false⟩ := by
  have h := apply_force_cotton_zero_velocity Rat.sqrt COTTON
      ⟨0, 0, 0, 0, 0, 0, 0, 0, 1, false⟩ 1 rfl (by norm_num) rfl rfl
      (rat_sqrt_eq_of_sq 0 0 (by norm_num) (by norm_num))
  rw [h]
  ext <;> norm_num

end ForceAndSolveClaims

/-! ## The per-frame simulation step (main loop body, cloth_simulation.c:352-364) -/

/-- The SDL mouse state consumed by `handle_mouse_interaction`. -/
structure Mouse where
  x : ℚ
  y : ℚ
  down : Bool
deriving DecidableEq, Repr

/-- Per-particle body of `handle_mouse_interaction`
(cloth_simulation.c:263-279): snap an unlocked particle within radius 20 of
the pointer onto the pointer, zeroing its implicit velocity. -/
def snap_to_mouse (S : ℚ → ℚ) (m : Mouse) (p : Particle) : Particle :=
  let dx : ℚ := p.x - m.x
  let dy : ℚ := p.y - m.y
  let dist : ℚ := S (dx * dx + dy * dy)
  if dist < 20 ∧ p.locked = false then
    { p with x := m.x, y := m.y, old_x := m.x, old_y := m.y }
  else p

/-- Embedding of `handle_mouse_interaction` (cloth_simulation.c:263-279): a no-op unless
the button is down, otherwise the per-particle snap over the whole array. -/
def handle_mouse_interaction (S : ℚ → ℚ) (m : Mouse) (ps : List Particle) :
    List Particle :=
  if m.down then ps.map (snap_to_mouse S m) else ps

/-- The force pass of the main loop (cloth_simulation.c:352-354):
`current_material.apply_force` on every particle. -/
def forcePass (S : ℚ → ℚ) (mat : Material) (dt : ℚ) (ps : List Particle) :
    List Particle :=
  ps.map (fun p => runForce mat.apply_force S mat p dt)

/-- One constraint of the relaxation loop (cloth_simulation.c:360-363):
`current_material.solve_constraint(c->p1, c->p2, c->rest_length)`, writing
both endpoints back.  Grid constraints always carry two distinct in-range
indices. -/
def applyConstraintAt (S : ℚ → ℚ) (mat : Material) (ps : List Particle)
    (c : Constraint) : List Particle :=
  match ps[c.p1]?, ps[c.p2]? with
  | some q1, some q2 =>
      let r := runSolve mat.solve_constraint S mat mat q1 q2 c.rest_length
      (ps.set c.p1 r.1).set c.p2 r.2
  | _, _ => ps

/-- One relaxation pass: every constraint once, in stored order. -/
def relaxPass (S : ℚ → ℚ) (mat : Material) (cs : List Constraint)
    (ps : List Particle) : List Particle :=
  cs.foldl (applyConstraintAt S mat) ps

/-- The per-frame inputs of one iteration of the main loop: the wall-clock
delta, the mouse state, and the value of `current_material` for that frame. -/
structure FrameInput where
  dt : ℚ
  mouse : Mouse
  mat : Material

/-- One iteration of the physics part of the main loop
(cloth_simulation.c:352-364): force pass, mouse interaction, then the
`for (j = 0; j < 5; j++)` relaxation loop. -/
def stepFrame (S : ℚ → ℚ) (cs : List Constraint) (f : FrameInput)
    (ps : List Particle) : List Particle :=
  let ps1 := ps.map (fun p => runForce f.mat.apply_force S f.mat p f.dt)
  let ps2 := if f.mouse.down then ps1.map (snap_to_mouse S f.mouse) else ps1
  (fun a => cs.foldl (applyConstraintAt S f.mat) a)^[5] ps2

/-- A whole run: the main loop over a list of per-frame inputs. -/
def runFrames (S : ℚ → ℚ) (cs : List Constraint) (fs : List FrameInput)
    (ps : List Particle) : List Particle :=
  fs.foldl (fun a f => stepFrame S cs f a) ps

section StepStructure

/-- The step decomposes into the three named passes (shared helper). -/
theorem stepFrame_decomp (S : ℚ → ℚ) (cs : List Constraint) (f : FrameInput)
    (ps : List Particle) :
    stepFrame S cs f ps =
      relaxPass S f.mat cs (relaxPass S f.mat cs (relaxPass S f.mat cs
        (relaxPass S f.mat cs (relaxPass S f.mat cs
          (handle_mouse_interaction S f.mouse (forcePass S f.mat f.dt ps)))))) := rfl

/-- Claim C4: one simulation step performs, in strict order, the active
material's force rule on every particle, then the pointer-interaction pass,
then exactly 5 relaxation passes; each relaxation pass calls the active
material's constraint rule once per constraint, processing the constraint
list in its stored order (head first). -/
theorem stepFrame_structure (S : ℚ → ℚ) (cs : List Constraint)
    (f : FrameInput) (ps : List Particle) :
    stepFrame S cs f ps =
      relaxPass S f.mat cs (relaxPass S f.mat cs (relaxPass S f.mat cs
        (relaxPass S f.mat cs (relaxPass S f.mat cs
          (handle_mouse_interaction S f.mouse (forcePass S f.mat f.dt ps)))))) ∧
    (∀ (c : Constraint) (rest : List Constraint) (a : List Particle),
      relaxPass S f.mat (c :: rest) a =
        relaxPass S f.mat rest (applyConstraintAt S f.mat a c)) ∧
    (∀ i : ℕ, (forcePass S f.mat f.dt ps)[i]? =
      (ps[i]?).map (fun p => runForce f.mat.apply_force S f.mat p f.dt)) := by
  refine ⟨stepFrame_decomp S cs f ps, fun c rest a => rfl, fun i => ?_⟩
  simp [forcePass]

end StepStructure

section LockedInvariant

/-- Predicate: `qs` keeps the pose (position, previous position) and lock flag of every
locked particle of `ps`, index by index. -/
def PoseFrozen (ps qs : List Particle) : Prop :=
  ∀ (i : ℕ) (p : Particle), ps[i]? = some p → p.locked = true →
    ∃ q, qs[i]? = some q ∧ q.x = p.x ∧ q.y = p.y ∧
      q.old_x = p.old_x ∧ q.old_y = p.old_y ∧ q.locked = true

theorem poseFrozen_refl (ps : List Particle) : PoseFrozen ps ps :=
  fun _ p hp hl => ⟨p, hp, rfl, rfl, rfl, rfl, hl⟩

theorem poseFrozen_trans {ps qs rs : List Particle}
    (h1 : PoseFrozen ps qs) (h2 : PoseFrozen qs rs) : PoseFrozen ps rs := by
  intro i p hp hl
  obtain ⟨q, hq, hx, hy, hox, hoy, hql⟩ := h1 i p hp hl
  obtain ⟨r, hr, hx', hy', hox', hoy', hrl⟩ := h2 i q hq hql
  exact ⟨r, hr, hx'.trans hx, hy'.trans hy, hox'.trans hox, hoy'.trans hoy, hrl⟩

theorem apply_force_cotton_locked (S : ℚ → ℚ) (mat : Material) (p : Particle)
    (dt : ℚ) (h : p.locked = true) : apply_force_cotton S mat p dt = p := by
  unfold apply_force_cotton
  rw [h]
  rfl

/-- Every material's force rule leaves a locked particle's pose and lock flag
alone (silk and denim still rescale its stored velocity, as in the source). -/
theorem runForce_locked (k : ForceKind) (S : ℚ → ℚ) (mat : Material)
    (p : Particle) (dt : ℚ) (h : p.locked = true) :
    (runForce k S mat p dt).x = p.x ∧ (runForce k S mat p dt).y = p.y ∧
    (runForce k S mat p dt).old_x = p.old_x ∧
    (runForce k S mat p dt).old_y = p.old_y ∧
    (runForce k S mat p dt).locked = true := by
  cases k <;>
    simp [runForce, apply_force_silk, apply_force_denim,
      apply_force_cotton_locked S mat p dt h, h]

theorem snap_to_mouse_locked (S : ℚ → ℚ) (m : Mouse) (p : Particle)
    (h : p.locked = true) : snap_to_mouse S m p = p := by
  unfold snap_to_mouse
  rw [if_neg]
  simp [h]

theorem solve_constraint_cotton_locked_fst (S : ℚ → ℚ) (m1 m2 : Material)
    (p1 p2 : Particle) (L : ℚ) (h : p1.locked = true) :
    (solve_constraint_cotton S m1 m2 p1 p2 L).1 = p1 := by
  unfold solve_constraint_cotton
  dsimp only
  split
  · simp [h]
  · rfl

theorem solve_constraint_cotton_locked_snd (S : ℚ → ℚ) (m1 m2 : Material)
    (p1 p2 : Particle) (L : ℚ) (h : p2.locked = true) :
    (solve_constraint_cotton S m1 m2 p1 p2 L).2 = p2 := by
  unfold solve_constraint_cotton
  dsimp only
  split
  · simp [h]
  · rfl

theorem runSolve_locked_fst (k : ConstraintKind) (S : ℚ → ℚ)
    (m1 m2 : Material) (p1 p2 : Particle) (L : ℚ) (h : p1.locked = true) :
    (runSolve k S m1 m2 p1 p2 L).1 = p1 := by
  cases k <;>
    simp [runSolve, solve_constraint_silk, solve_constraint_denim,
      solve_constraint_cotton_locked_fst _ _ _ _ _ _ h]

theorem runSolve_locked_snd (k : ConstraintKind) (S : ℚ → ℚ)
    (m1 m2 : Material) (p1 p2 : Particle) (L : ℚ) (h : p2.locked = true) :
    (runSolve k S m1 m2 p1 p2 L).2 = p2 := by
  cases k <;>
    simp [runSolve, solve_constraint_silk, solve_constraint_denim,
      solve_constraint_cotton_locked_snd _ _ _ _ _ _ h]

theorem poseFrozen_forcePass (S : ℚ → ℚ) (mat : Material) (dt : ℚ)
    (ps : List Particle) : PoseFrozen ps (forcePass S mat dt ps) := by
  intro i p hp hl
  obtain ⟨hx, hy, hox, hoy, hlk⟩ := runForce_locked mat.apply_force S mat p dt hl
  exact ⟨runForce mat.apply_force S mat p dt, by simp [forcePass, hp],
    hx, hy, hox, hoy, hlk⟩

theorem poseFrozen_mouse (S : ℚ → ℚ) (m : Mouse) (ps : List Particle) :
    PoseFrozen ps (handle_mouse_interaction S m ps) := by
  intro i p hp hl
  unfold handle_mouse_interaction
  split
  · exact ⟨p, by simp [hp, snap_to_mouse_locked S m p hl], rfl, rfl, rfl, rfl, hl⟩
  · exact ⟨p, hp, rfl, rfl, rfl, rfl, hl⟩

theorem poseFrozen_applyConstraintAt (S : ℚ → ℚ) (mat : Material)
    (ps : List Particle) (c : Constraint) :
    PoseFrozen ps (applyConstraintAt S mat ps c) := by
  intro i p hp hl
  unfold applyConstraintAt
  cases h1 : ps[c.p1]? with
  | none => exact ⟨p, hp, rfl, rfl, rfl, rfl, hl⟩
  | some q1 =>
    cases h2 : ps[c.p2]? with
    | none => exact ⟨p, hp, rfl, rfl, rfl, rfl, hl⟩
    | some q2 =>
      dsimp only
      by_cases e2 : i = c.p2
      · subst e2
        have hq2 : q2 = p := by rw [hp] at h2; exact (Option.some.inj h2).symm
        subst hq2
        have hlen : c.p2 < ((ps.set c.p1
            (runSolve mat.solve_constraint S mat mat q1 q2 c.rest_length).1).length) := by
          simp [List.length_set]
          exact (List.getElem?_eq_some_iff.mp h2).1
        refine ⟨q2, ?_, ?_⟩
        · rw [List.getElem?_set_self hlen,
            runSolve_locked_snd mat.solve_constraint S mat mat q1 q2 c.rest_length hl]
        · exact ⟨rfl, rfl, rfl, rfl, hl⟩
      · by_cases e1 : i = c.p1
        · subst e1
          have hq1 : q1 = p := by rw [hp] at h1; exact (Option.some.inj h1).symm
          subst hq1
          have hlen : c.p1 < ps.length := (List.getElem?_eq_some_iff.mp h1).1
          refine ⟨q1, ?_, ⟨rfl, rfl, rfl, rfl, hl⟩⟩
          rw [List.getElem?_set_ne (fun h => e2 h.symm),
            List.getElem?_set_self (by simpa using hlen),
            runSolve_locked_fst mat.solve_constraint S mat mat q1 q2 c.rest_length hl]
        · refine ⟨p, ?_, rfl, rfl, rfl, rfl, hl⟩
          rw [List.getElem?_set_ne (fun h => e2 h.symm),
            List.getElem?_set_ne (fun h => e1 h.symm)]
          exact hp

theorem poseFrozen_relaxPass (S : ℚ → ℚ) (mat : Material)
    (cs : List Constraint) (ps : List Particle) :
    PoseFrozen ps (relaxPass S mat cs ps) := by
  induction cs generalizing ps with
  | nil => exact poseFrozen_refl ps
  | cons c rest ih =>
    exact poseFrozen_trans (poseFrozen_applyConstraintAt S mat ps c)
      (ih (applyConstraintAt S mat ps c))

theorem poseFrozen_stepFrame (S : ℚ → ℚ) (cs : List Constraint)
    (f : FrameInput) (ps : List Particle) :
    PoseFrozen ps (stepFrame S cs f ps) := by
  rw [stepFrame_decomp S cs f ps]
  refine poseFrozen_trans (poseFrozen_forcePass S f.mat f.dt ps)
    (poseFrozen_trans (poseFrozen_mouse S f.mouse _)
      (poseFrozen_trans (poseFrozen_relaxPass S f.mat cs _)
        (poseFrozen_trans (poseFrozen_relaxPass S f.mat cs _)
          (poseFrozen_trans (poseFrozen_relaxPass S f.mat cs _)
            (poseFrozen_trans (poseFrozen_relaxPass S f.mat cs _)
              (poseFrozen_relaxPass S f.mat cs _))))))

theorem poseFrozen_runFrames (S : ℚ → ℚ) (cs : List Constraint)
    (fs : List FrameInput) (ps : List Particle) :
    PoseFrozen ps (runFrames S cs fs ps) := by
  unfold runFrames
  induction fs generalizing ps with
  | nil => exact poseFrozen_refl ps
  | cons f rest ih =>
    exact poseFrozen_trans (poseFrozen_stepFrame S cs f ps)
      (ih (stepFrame S cs f ps))

/-- Claim C1: a locked particle's position and previous position are
unchanged by any number of simulation steps (any frame inputs, any mouse
state, any active material): the force rules do not move it, the constraint
solver never moves a locked endpoint, and the pointer snap skips it. -/
theorem locked_particle_pose_invariant (S : ℚ → ℚ) (cs : List Constraint)
    (fs : List FrameInput) (ps : List Particle) (i : ℕ) (p : Particle)
    (hp : ps[i]? = some p) (hl : p.locked = true) :
    ∃ q, (runFrames S cs fs ps)[i]? = some q ∧ q.x = p.x ∧ q.y = p.y ∧
      q.old_x = p.old_x ∧ q.old_y = p.old_y ∧ q.locked = true :=
  poseFrozen_runFrames S cs fs ps i p hp hl

/-- Witness for C1: a pinned particle at the origin linked to a hanging
unlocked particle keeps its pose across a frame with gravity active. -/
theorem locked_particle_pose_invariant_witness :
    ∃ q, (runFrames Rat.sqrt [⟨0, 1, 15, 4/5⟩]
        [⟨1, ⟨0, 0, false⟩, COTTON⟩]
        [⟨0, 0, 0, 0, 0, 0, 0, 0, 1, true⟩,
         ⟨15, 0, 15, 0, 0, 0, 0, 0, 1, false⟩])[0]? = some q ∧
      q.x = 0 ∧ q.y = 0 ∧ q.old_x = 0 ∧ q.old_y = 0 ∧ q.locked = true :=
  locked_particle_pose_invariant Rat.sqrt [⟨0, 1, 15, 4/5⟩]
    [⟨1, ⟨0, 0, false⟩, COTTON⟩]
    [⟨0, 0, 0, 0, 0, 0, 0, 0, 1, true⟩,
     ⟨15, 0, 15, 0, 0, 0, 0, 0, 1, false⟩]
    0 ⟨0, 0, 0, 0, 0, 0, 0, 0, 1, true⟩ rfl rfl

end LockedInvariant

/-! ## Grid initialization (`init_particles`, cloth_simulation.c:216-237) -/

/-- Embedding of `start_x` (cloth_simulation.c:218): C integer arithmetic, so the division
by 2 truncates before the conversion to `float`. -/
def start_x : ℚ := ((800 - (50 - 1) * 15) / 2 : ℤ)

/-- Embedding of `start_y` (cloth_simulation.c:219): integer division by 4 — the code
comment says "Place in upper quarter". -/
def start_y : ℚ := ((600 - (30 - 1) * 15) / 4 : ℤ)

/-- The body of the nested loops of `init_particles` for grid cell
`(row, col)` (cloth_simulation.c:223-234); `mat` is the value of
`current_material` at the time of the call. -/
def mk_particle (mat : Material) (row col : ℕ) : Particle :=
  { x := start_x + col * 15, y := start_y + row * 15,
    old_x := start_x + col * 15, old_y := start_y + row * 15,
    vx := 0, vy := 0, force_x := 0, force_y := 0,
    mass := mat.mass, locked := decide (row = 0) }

/-- Embedding of `init_particles` (cloth_simulation.c:216-237): the row-major
`GRID_HEIGHT × GRID_WIDTH` particle array, cell `(row, col)` at flat index
`row * 50 + col`. -/
def init_particles (mat : Material) : List Particle :=
  (List.range (30 * 50)).map (fun i => mk_particle mat (i / 50) (i % 50))

/-- Modelled from the spec: a `start_y` "chosen to center the grid in the
canvas", i.e. with equal top and bottom margins:
`(canvasHeight - (gridHeight - 1) * spacing) / 2`. -/
def centered_start_y : ℚ := (600 - (30 - 1) * 15) / 2

section InitClaims

/-- Counterexample to C6 as stated: the claim says `start_y` is "chosen to
center the grid in the canvas", but the code computes
`(600 - 29 * 15) / 4 = 41` (integer division by 4, "upper quarter"), while
vertical centering requires `165 / 2 = 82.5`; the particle at `(0, 0)`
witnesses the difference. -/
theorem init_particles_not_vertically_centered :
    ∃ p : Particle, (init_particles COTTON)[0]? = some p ∧
      p.y = 41 ∧ centered_start_y = 165/2 ∧ p.y ≠ centered_start_y := by
  refine ⟨mk_particle COTTON 0 0, ?_, ?_, by norm_num [centered_start_y], ?_⟩
  · rw [init_particles, List.getElem?_map, List.getElem?_range (by norm_num)]
    rfl
  · norm_num [mk_particle, start_y]
  · norm_num [mk_particle, start_y, centered_start_y]

/-- Claim C6 (amended): initialization yields the row-major 30 × 50 grid,
cell `(row, col)` seeded at `(start_x + col * 15, start_y + row * 15)` with
`start_x = 32` (approximate horizontal centering by integer division) and
`start_y = 41` (upper-quarter placement, not vertical centering), previous
position equal to the position, zero velocity and force, mass copied from
the active material, and exactly the particles of row 0 locked. -/
theorem init_particles_spec (mat : Material) (row col : ℕ)
    (hrow : row < 30) (hcol : col < 50) :
    (init_particles mat).length = 30 * 50 ∧
    (init_particles mat)[row * 50 + col]? = some
      { x := start_x + col * 15, y := start_y + row * 15,
        old_x := start_x + col * 15, old_y := start_y + row * 15,
        vx := 0, vy := 0, force_x := 0, force_y := 0,
        mass := mat.mass, locked := decide (row = 0) } ∧
    start_x = 32 ∧ start_y = 41 ∧
    (∀ (i : ℕ) (q : Particle), (init_particles mat)[i]? = some q →
      (q.locked = true ↔ i / 50 = 0)) := by
  refine ⟨by simp [init_particles], ?_, by norm_num [start_x], by norm_num [start_y], ?_⟩
  · have hib : row * 50 + col < 30 * 50 := by omega
    rw [init_particles, List.getElem?_map, List.getElem?_range hib]
    have hdiv : (row * 50 + col) / 50 = row := by omega
    have hmod : (row * 50 + col) % 50 = col := by omega
    simp only [Option.map_some']
    rw [mk_particle, hdiv, hmod]
  · intro i q hq
    rw [init_particles, List.getElem?_map] at hq
    by_cases hi : i < 30 * 50
    · rw [List.getElem?_range hi] at hq
      simp only [Option.map_some'] at hq
      have hq' : mk_particle mat (i / 50) (i % 50) = q := Option.some.inj hq
      rw [← hq']
      constructor
      · intro hlk
        simpa [mk_particle] using hlk
      · intro h0
        simp [mk_particle, h0]
    · rw [List.getElem?_eq_none (by simpa using not_lt.mp hi)] at hq
      simp at hq

/-- Witness for C6 (amended): the particle of row 1, column 2. -/
theorem init_particles_spec_witness :
    (init_particles COTTON).length = 30 * 50 ∧
    (init_particles COTTON)[(1 : ℕ) * 50 + 2]? = some
      { x := start_x + ((2 : ℕ) : ℚ) * 15, y := start_y + ((1 : ℕ) : ℚ) * 15,
        old_x := start_x + ((2 : ℕ) : ℚ) * 15,
        old_y := start_y + ((1 : ℕ) : ℚ) * 15,
        vx := 0, vy := 0, force_x := 0, force_y := 0,
        mass := COTTON.mass, locked := decide ((1 : ℕ) = 0) } ∧
    start_x = 32 ∧ start_y = 41 ∧
    (∀ (i : ℕ) (q : Particle), (init_particles COTTON)[i]? = some q →
      (q.locked = true ↔ i / 50 = 0)) :=
  init_particles_spec COTTON 1 2 (by norm_num) (by norm_num)

end InitClaims

/-! ## Material selection (`current_material`, keys 1/2/3) -/

/-- The simulation's persistent mutable state: the particle array and the
global `current_material`. -/
structure SimState where
  particles : List Particle
  current_material : Material
deriving DecidableEq

/-- Embedding of the `SDLK_1`/`SDLK_2`/`SDLK_3` key handler (cloth_simulation.c:338-344):
`current_material = m` copies the chosen material value into the global. -/
def set_current_material (m : Material) (st : SimState) : SimState :=
  { st with current_material := m }

section MaterialRoundTrip

/-- Claim C7: setting the active material to denim, then silk, then back to
cotton, with no other state change, restores the state exactly (when the
material was cotton throughout), so every subsequent force application and
constraint solve produces cotton's outputs on all inputs. -/
theorem material_round_trip (st : SimState)
    (hc : st.current_material = COTTON) :
    set_current_material COTTON (set_current_material SILK
      (set_current_material DENIM st)) = st ∧
    (∀ (S : ℚ → ℚ) (p : Particle) (dt : ℚ),
      runForce (set_current_material COTTON (set_current_material SILK
          (set_current_material DENIM st))).current_material.apply_force S
        (set_current_material COTTON (set_current_material SILK
          (set_current_material DENIM st))).current_material p dt =
      runForce COTTON.apply_force S COTTON p dt) ∧
    (∀ (S : ℚ → ℚ) (p1 p2 : Particle) (L : ℚ),
      runSolve (set_current_material COTTON (set_current_material SILK
          (set_current_material DENIM st))).current_material.solve_constraint S
        (set_current_material COTTON (set_current_material SILK
          (set_current_material DENIM st))).current_material
        (set_current_material COTTON (set_current_material SILK
          (set_current_material DENIM st))).current_material p1 p2 L =
      runSolve COTTON.solve_constraint S COTTON COTTON p1 p2 L) := by
  refine ⟨?_, fun S p dt => rfl, fun S p1 p2 L => rfl⟩
  cases st with
  | mk particles current_material =>
    simp only [set_current_material]
    rw [← hc]

/-- Witness for C7: the empty cotton state. -/
theorem material_round_trip_witness :
    set_current_material COTTON (set_current_material SILK
      (set_current_material DENIM ⟨[], COTTON⟩)) = (⟨[], COTTON⟩ : SimState) ∧
    (∀ (S : ℚ → ℚ) (p : Particle) (dt : ℚ),
      runForce (set_current_material COTTON (set_current_material SILK
          (set_current_material DENIM ⟨[], COTTON⟩))).current_material.apply_force S
        (set_current_material COTTON (set_current_material SILK
          (set_current_material DENIM ⟨[], COTTON⟩))).current_material p dt =
      runForce COTTON.apply_force S COTTON p dt) ∧
    (∀ (S : ℚ → ℚ) (p1 p2 : Particle) (L : ℚ),
      runSolve (set_current_material COTTON (set_current_material SILK
          (set_current_material DENIM ⟨[], COTTON⟩))).current_material.solve_constraint S
        (set_current_material COTTON (set_current_material SILK
          (set_current_material DENIM ⟨[], COTTON⟩))).current_material
        (set_current_material COTTON (set_current_material SILK
          (set_current_material DENIM ⟨[], COTTON⟩))).current_material p1 p2 L =
      runSolve COTTON.solve_constraint S COTTON COTTON p1 p2 L) :=
  material_round_trip ⟨[], COTTON⟩ rfl

end MaterialRoundTrip

/-! ## A single stretched constraint under the relaxation loop -/

/-- Runs `n` base relaxation passes over a single isolated cotton constraint: the
main loop's `for (j = 0; j < 5; j++)` restricted to one constraint. -/
def solveCottonIter (S : ℚ → ℚ) (L : ℚ) (n : ℕ) (pq : Particle × Particle) :
    Particle × Particle :=
  (fun r => solve_constraint_cotton S COTTON COTTON r.1 r.2 L)^[n] pq

/-- Locked endpoint of the floor counterexample, at the origin. -/
def cexP1 : Particle := ⟨0, 0, 0, 0, 0, 0, 0, 0, 1, true⟩

/-- Unlocked endpoint of the floor counterexample, at twice the rest length
`1/25000` from the locked endpoint, i.e. below the `1/10000` solver floor. -/
def cexP2 : Particle := ⟨1/12500, 0, 1/12500, 0, 0, 0, 0, 0, 1, false⟩

section StretchedConstraint

/-- Counterexample to C5 as stated: a pair separated by exactly twice the
rest length `1/25000`, one endpoint locked and one unlocked (both cotton),
whose separation `1/12500` sits below the solver's `1/10000` floor: all 5
relaxation passes are no-ops, so the unlocked endpoint's distance to the
locked endpoint does not move strictly closer to the rest length. -/
theorem stretched_constraint_floor_cex :
    cexP1.locked = true ∧ cexP2.locked = false ∧
    Rat.sqrt ((cexP2.x - cexP1.x) * (cexP2.x - cexP1.x)
      + (cexP2.y - cexP1.y) * (cexP2.y - cexP1.y)) = 2 * (1/25000) ∧
    solveCottonIter Rat.sqrt (1/25000) 5 (cexP1, cexP2) = (cexP1, cexP2) ∧
    ¬ (|Rat.sqrt (((solveCottonIter Rat.sqrt (1/25000) 5 (cexP1, cexP2)).2.x
          - (solveCottonIter Rat.sqrt (1/25000) 5 (cexP1, cexP2)).1.x)
        * ((solveCottonIter Rat.sqrt (1/25000) 5 (cexP1, cexP2)).2.x
          - (solveCottonIter Rat.sqrt (1/25000) 5 (cexP1, cexP2)).1.x)
        + ((solveCottonIter Rat.sqrt (1/25000) 5 (cexP1, cexP2)).2.y
          - (solveCottonIter Rat.sqrt (1/25000) 5 (cexP1, cexP2)).1.y)
        * ((solveCottonIter Rat.sqrt (1/25000) 5 (cexP1, cexP2)).2.y
          - (solveCottonIter Rat.sqrt (1/25000) 5 (cexP1, cexP2)).1.y)) - 1/25000|
      < |Rat.sqrt ((cexP2.x - cexP1.x) * (cexP2.x - cexP1.x)
          + (cexP2.y - cexP1.y) * (cexP2.y - cexP1.y)) - 1/25000|) := by
  have hsep : (cexP2.x - cexP1.x) * (cexP2.x - cexP1.x)
      + (cexP2.y - cexP1.y) * (cexP2.y - cexP1.y)
      = (1/12500 : ℚ) * (1/12500) := by
    norm_num [cexP1, cexP2]
  have hsq : Rat.sqrt ((cexP2.x - cexP1.x) * (cexP2.x - cexP1.x)
      + (cexP2.y - cexP1.y) * (cexP2.y - cexP1.y)) = 2 * (1/25000) := by
    rw [hsep, rat_sqrt_mul_self _ (by norm_num)]
    norm_num
  have hfix : solve_constraint_cotton Rat.sqrt COTTON COTTON cexP1 cexP2
      (1/25000) = (cexP1, cexP2) := by
    unfold solve_constraint_cotton
    dsimp only
    rw [hsep, rat_sqrt_mul_self _ (by norm_num), if_neg (by norm_num)]
  have hit : solveCottonIter Rat.sqrt (1/25000) 5 (cexP1, cexP2)
      = (cexP1, cexP2) := Function.iterate_fixed hfix 5
  refine ⟨rfl, rfl, hsq, hit, ?_⟩
  rw [hit]
  exact lt_irrefl _

/-- The scaling factor of the unlocked endpoint's offset after `n` passes:
`1` initially; a firing pass (current distance `c * 2L` above the floor)
rescales by the cotton update, a skipped pass keeps it. -/
def cApprox (L : ℚ) : ℕ → ℚ
  | 0 => 1
  | n + 1 =>
    if 1/10000 < cApprox L n * (2 * L) then 17/20 * cApprox L n + 3/40
    else cApprox L n

theorem cApprox_zero (L : ℚ) : cApprox L 0 = 1 := rfl

theorem cApprox_succ (L : ℚ) (n : ℕ) :
    cApprox L (n + 1) =
      if 1/10000 < cApprox L n * (2 * L) then 17/20 * cApprox L n + 3/40
      else cApprox L n := rfl

theorem cApprox_bounds (L : ℚ) (n : ℕ) :
    1/2 ≤ cApprox L n ∧ cApprox L n ≤ 1 := by
  induction n with
  | zero => norm_num [cApprox_zero]
  | succ n ih =>
    obtain ⟨ha, hb⟩ := ih
    rw [cApprox_succ]
    split
    · constructor <;> linarith
    · exact ⟨ha, hb⟩

theorem cApprox_pos (L : ℚ) (n : ℕ) : 0 < cApprox L n :=
  lt_of_lt_of_le (by norm_num) (cApprox_bounds L n).1

theorem cApprox_succ_le (L : ℚ) (n : ℕ) : cApprox L (n + 1) ≤ cApprox L n := by
  have ha := (cApprox_bounds L n).1
  rw [cApprox_succ]
  split
  · linarith
  · exact le_refl _

theorem cApprox_one (L : ℚ) (hfloor : 1/10000 < 2 * L) :
    cApprox L 1 = 37/40 := by
  rw [cApprox_succ, cApprox_zero, if_pos (by rw [one_mul]; exact hfloor)]
  norm_num

theorem cApprox_five_le (L : ℚ) (hfloor : 1/10000 < 2 * L) :
    cApprox L 5 ≤ 37/40 := by
  have h1 := cApprox_one L hfloor
  have h2 := cApprox_succ_le L 1
  have h3 := cApprox_succ_le L 2
  have h4 := cApprox_succ_le L 3
  have h5 := cApprox_succ_le L 4
  linarith

theorem solve_pass_ray_far (S : ℚ → ℚ) (L c dx0 dy0 : ℚ) (p1 q2 : Particle)
    (h1 : p1.locked = true) (h2 : q2.locked = false)
    (hS : ∀ q : ℚ, 0 ≤ q → S (q * q) = q)
    (hnorm : dx0 * dx0 + dy0 * dy0 = (2 * L) * (2 * L))
    (hL : 0 < L) (hc : 0 < c)
    (hx : q2.x = p1.x + c * dx0) (hy : q2.y = p1.y + c * dy0)
    (hb : 1/10000 < c * (2 * L)) :
    (solve_constraint_cotton S COTTON COTTON p1 q2 L).1 = p1 ∧
    (solve_constraint_cotton S COTTON COTTON p1 q2 L).2.x
      = p1.x + (17/20 * c + 3/40) * dx0 ∧
    (solve_constraint_cotton S COTTON COTTON p1 q2 L).2.y
      = p1.y + (17/20 * c + 3/40) * dy0 ∧
    (solve_constraint_cotton S COTTON COTTON p1 q2 L).2.locked = false := by
  have harg : (q2.x - p1.x) * (q2.x - p1.x) + (q2.y - p1.y) * (q2.y - p1.y)
      = (c * (2 * L)) * (c * (2 * L)) := by
    rw [hx, hy]
    linear_combination (c * c) * hnorm
  have hsq : S ((q2.x - p1.x) * (q2.x - p1.x) + (q2.y - p1.y) * (q2.y - p1.y))
      = c * (2 * L) := by
    rw [harg]
    exact hS _ (by positivity)
  have hne : c * (2 * L) ≠ 0 := ne_of_gt (lt_trans (by norm_num) hb)
  unfold solve_constraint_cotton
  dsimp only
  rw [hsq, if_pos hb]
  refine ⟨by simp [h1], ?_, ?_, by simp [h2]⟩
  · simp only [h1, h2, Bool.false_eq_true, if_false]
    rw [hx, show COTTON.elasticity = 3/10 from rfl]
    field_simp
    ring
  · simp only [h1, h2, Bool.false_eq_true, if_false]
    rw [hy, show COTTON.elasticity = 3/10 from rfl]
    field_simp
    ring

theorem solve_pass_ray_near (S : ℚ → ℚ) (L c dx0 dy0 : ℚ) (p1 q2 : Particle)
    (hS : ∀ q : ℚ, 0 ≤ q → S (q * q) = q)
    (hnorm : dx0 * dx0 + dy0 * dy0 = (2 * L) * (2 * L))
    (hL : 0 < L) (hc : 0 < c)
    (hx : q2.x = p1.x + c * dx0) (hy : q2.y = p1.y + c * dy0)
    (hb : ¬ 1/10000 < c * (2 * L)) :
    solve_constraint_cotton S COTTON COTTON p1 q2 L = (p1, q2) := by
  have harg : (q2.x - p1.x) * (q2.x - p1.x) + (q2.y - p1.y) * (q2.y - p1.y)
      = (c * (2 * L)) * (c * (2 * L)) := by
    rw [hx, hy]
    linear_combination (c * c) * hnorm
  have hsq : S ((q2.x - p1.x) * (q2.x - p1.x) + (q2.y - p1.y) * (q2.y - p1.y))
      = c * (2 * L) := by
    rw [harg]
    exact hS _ (by positivity)
  unfold solve_constraint_cotton
  dsimp only
  rw [hsq, if_neg hb]

theorem solveCottonIter_ray (S : ℚ → ℚ) (L : ℚ) (p1 p2 : Particle)
    (h1 : p1.locked = true) (h2 : p2.locked = false)
    (hS : ∀ q : ℚ, 0 ≤ q → S (q * q) = q)
    (hsep : (p2.x - p1.x) * (p2.x - p1.x) + (p2.y - p1.y) * (p2.y - p1.y)
      = (2 * L) * (2 * L))
    (hL : 0 < L) (n : ℕ) :
    (solveCottonIter S L n (p1, p2)).1 = p1 ∧
    (solveCottonIter S L n (p1, p2)).2.x = p1.x + cApprox L n * (p2.x - p1.x) ∧
    (solveCottonIter S L n (p1, p2)).2.y = p1.y + cApprox L n * (p2.y - p1.y) ∧
    (solveCottonIter S L n (p1, p2)).2.locked = false := by
  induction n with
  | zero =>
    refine ⟨rfl, ?_, ?_, h2⟩
    · show p2.x = p1.x + cApprox L 0 * (p2.x - p1.x)
      rw [cApprox_zero]
      ring
    · show p2.y = p1.y + cApprox L 0 * (p2.y - p1.y)
      rw [cApprox_zero]
      ring
  | succ n ih =>
    obtain ⟨ia, ib, ic, id⟩ := ih
    have hstep : solveCottonIter S L (n + 1) (p1, p2)
        = solve_constraint_cotton S COTTON COTTON
            (solveCottonIter S L n (p1, p2)).1
            (solveCottonIter S L n (p1, p2)).2 L := by
      unfold solveCottonIter
      rw [Function.iterate_succ_apply']
    rw [hstep, ia]
    by_cases hb : 1/10000 < cApprox L n * (2 * L)
    · obtain ⟨ja, jb, jc, jd⟩ := solve_pass_ray_far S L (cApprox L n)
        (p2.x - p1.x) (p2.y - p1.y) p1 (solveCottonIter S L n (p1, p2)).2
        h1 id hS hsep hL (cApprox_pos L n) ib ic hb
      have hcs : cApprox L (n + 1) = 17/20 * cApprox L n + 3/40 := by
        rw [cApprox_succ, if_pos hb]
      rw [hcs]
      exact ⟨ja, jb, jc, jd⟩
    · have hfix := solve_pass_ray_near S L (cApprox L n)
        (p2.x - p1.x) (p2.y - p1.y) p1 (solveCottonIter S L n (p1, p2)).2
        hS hsep hL (cApprox_pos L n) ib ic hb
      have hcs : cApprox L (n + 1) = cApprox L n := by
        rw [cApprox_succ, if_neg hb]
      rw [hfix, hcs]
      exact ⟨rfl, ib, ic, id⟩

/-- Claim C5 (amended): for a single cotton constraint with one endpoint
locked and the other unlocked, separated by exactly twice the rest length,
and with that separation above the solver's `1/10000` floor, after 5 base
relaxation passes the unlocked endpoint's distance to the locked endpoint is
strictly closer to the rest length than initially, and after every number of
passes the unlocked endpoint stays strictly on its original side of the
locked endpoint, within its original offset (no crossing, no overshoot). -/
theorem stretched_constraint_converges (S : ℚ → ℚ) (L : ℚ) (p1 p2 : Particle)
    (h1 : p1.locked = true) (h2 : p2.locked = false)
    (hS : ∀ q : ℚ, 0 ≤ q → S (q * q) = q)
    (hsep : (p2.x - p1.x) * (p2.x - p1.x) + (p2.y - p1.y) * (p2.y - p1.y)
      = (2 * L) * (2 * L))
    (hfloor : 1/10000 < 2 * L) :
    (∀ n : ℕ, ∃ c : ℚ, 0 < c ∧ c ≤ 1 ∧
      (solveCottonIter S L n (p1, p2)).1 = p1 ∧
      (solveCottonIter S L n (p1, p2)).2.x = p1.x + c * (p2.x - p1.x) ∧
      (solveCottonIter S L n (p1, p2)).2.y = p1.y + c * (p2.y - p1.y)) ∧
    |S (((solveCottonIter S L 5 (p1, p2)).2.x - (solveCottonIter S L 5 (p1, p2)).1.x)
        * ((solveCottonIter S L 5 (p1, p2)).2.x - (solveCottonIter S L 5 (p1, p2)).1.x)
        + ((solveCottonIter S L 5 (p1, p2)).2.y - (solveCottonIter S L 5 (p1, p2)).1.y)
        * ((solveCottonIter S L 5 (p1, p2)).2.y - (solveCottonIter S L 5 (p1, p2)).1.y))
      - L|
      < |S ((p2.x - p1.x) * (p2.x - p1.x) + (p2.y - p1.y) * (p2.y - p1.y)) - L| := by
  have hL : 0 < L := by linarith
  constructor
  · intro n
    obtain ⟨ia, ib, ic, _⟩ := solveCottonIter_ray S L p1 p2 h1 h2 hS hsep hL n
    exact ⟨cApprox L n, cApprox_pos L n, (cApprox_bounds L n).2, ia, ib, ic⟩
  · obtain ⟨ia, ib, ic, _⟩ := solveCottonIter_ray S L p1 p2 h1 h2 hS hsep hL 5
    have hcl := (cApprox_bounds L 5).1
    have hcu := cApprox_five_le L hfloor
    have hcpos : 0 < cApprox L 5 := cApprox_pos L 5
    have hoff : ((solveCottonIter S L 5 (p1, p2)).2.x
          - (solveCottonIter S L 5 (p1, p2)).1.x)
        * ((solveCottonIter S L 5 (p1, p2)).2.x
          - (solveCottonIter S L 5 (p1, p2)).1.x)
        + ((solveCottonIter S L 5 (p1, p2)).2.y
          - (solveCottonIter S L 5 (p1, p2)).1.y)
        * ((solveCottonIter S L 5 (p1, p2)).2.y
          - (solveCottonIter S L 5 (p1, p2)).1.y)
        = (cApprox L 5 * (2 * L)) * (cApprox L 5 * (2 * L)) := by
      rw [ia, ib, ic]
      linear_combination (cApprox L 5 * cApprox L 5) * hsep
    rw [hoff, hS _ (by positivity), hsep, hS _ (by positivity)]
    have e1 : (0:ℚ) ≤ cApprox L 5 * (2 * L) - L := by nlinarith
    have e2 : (0:ℚ) ≤ 2 * L - L := by linarith
    rw [abs_of_nonneg e1, abs_of_nonneg e2]
    nlinarith

/-- Locked endpoint of the C5 witness, at the origin. -/
def wStretchP1 : Particle := ⟨0, 0, 0, 0, 0, 0, 0, 0, 1, true⟩

/-- Unlocked endpoint of the C5 witness, at distance 10 (twice the rest
length 5) from the locked endpoint. -/
def wStretchP2 : Particle := ⟨10, 0, 10, 0, 0, 0, 0, 0, 1, false⟩

/-- Witness for C5 (amended): rest length 5, initial separation 10. -/
theorem stretched_constraint_converges_witness :
    (∀ n : ℕ, ∃ c : ℚ, 0 < c ∧ c ≤ 1 ∧
      (solveCottonIter Rat.sqrt 5 n (wStretchP1, wStretchP2)).1 = wStretchP1 ∧
      (solveCottonIter Rat.sqrt 5 n (wStretchP1, wStretchP2)).2.x
        = wStretchP1.x + c * (wStretchP2.x - wStretchP1.x) ∧
      (solveCottonIter Rat.sqrt 5 n (wStretchP1, wStretchP2)).2.y
        = wStretchP1.y + c * (wStretchP2.y - wStretchP1.y)) ∧
    |Rat.sqrt (((solveCottonIter Rat.sqrt 5 5 (wStretchP1, wStretchP2)).2.x
        - (solveCottonIter Rat.sqrt 5 5 (wStretchP1, wStretchP2)).1.x)
        * ((solveCottonIter Rat.sqrt 5 5 (wStretchP1, wStretchP2)).2.x
        - (solveCottonIter Rat.sqrt 5 5 (wStretchP1, wStretchP2)).1.x)
        + ((solveCottonIter Rat.sqrt 5 5 (wStretchP1, wStretchP2)).2.y
        - (solveCottonIter Rat.sqrt 5 5 (wStretchP1, wStretchP2)).1.y)
        * ((solveCottonIter Rat.sqrt 5 5 (wStretchP1, wStretchP2)).2.y
        - (solveCottonIter Rat.sqrt 5 5 (wStretchP1, wStretchP2)).1.y)) - 5|
      < |Rat.sqrt ((wStretchP2.x - wStretchP1.x) * (wStretchP2.x - wStretchP1.x)
          + (wStretchP2.y - wStretchP1.y) * (wStretchP2.y - wStretchP1.y)) - 5| :=
  stretched_constraint_converges Rat.sqrt 5 wStretchP1 wStretchP2 rfl rfl
    (fun q hq => rat_sqrt_mul_self q hq)
    (by norm_num [wStretchP1, wStretchP2]) (by norm_num)

end StretchedConstraint

end Cloth
